/-
  Verification of the lobby racing server (lobby-server.js).

  Shallow embedding: JavaScript numbers are modelled as rationals (ℚ),
  `Date.now()` timestamps as integers (milliseconds) passed explicitly,
  and the trigonometric functions `Math.sin` / `Math.cos` as an injected
  oracle `trig : ℚ → ℚ × ℚ` returning `(sin a, cos a)`; none of the
  properties proved below depend on the values the oracle returns.
  JavaScript object maps (string key → value, insertion ordered) are
  modelled as association lists.
-/
import Mathlib

namespace LobbyServer

/-- The per-seat input vector `{ up, down, left, right }` (lobby-server.js
line 79). -/
structure Input where
  up : Bool
  down : Bool
  left : Bool
  right : Bool
deriving DecidableEq, Repr

/-- Input with all keys released, the construction default. -/
def Input.none : Input := ⟨false, false, false, false⟩

/-- A player record, with the fields set by `GameLobby.addPlayer`
(lobby-server.js lines 56-80).  `speedBonusTimer` is lazily initialised to
0 in the source (line 322); it is a typed field here. -/
structure Player where
  id : String
  playerNum : ℕ
  name : String
  x : ℚ
  y : ℚ
  width : ℚ
  height : ℚ
  speed : ℚ
  maxSpeed : ℚ
  angle : ℚ
  velocityX : ℚ
  velocityY : ℚ
  turnSpeed : ℚ
  boosting : Bool
  boostTime : ℤ
  score : ℚ
  streak : ℕ
  multiplier : ℚ
  perfectCount : ℕ
  lastObstacleTime : ℤ
  comboTimer : ℕ
  nearMissCount : ℕ
  speedBonusTimer : ℕ
  input : Input
deriving DecidableEq, Repr

/-- The player record built on join (lobby-server.js lines 56-80): spawn at
(200,500), zero motion, `maxSpeed = 8`, `score = 0`, `streak = 0`,
`multiplier = 1`.  `now` stands for the `Date.now()` stored in
`lastObstacleTime`. -/
def initPlayer (socketId : String) (playerNum : ℕ) (playerName : String)
    (now : ℤ) : Player :=
  { id := socketId
    playerNum := playerNum
    name := playerName
    x := 200, y := 500, width := 30, height := 60
    speed := 0, maxSpeed := 8, angle := 0
    velocityX := 0, velocityY := 0, turnSpeed := 0
    boosting := false, boostTime := 0
    score := 0, streak := 0, multiplier := 1
    perfectCount := 0, lastObstacleTime := now
    comboTimer := 0, nearMissCount := 0, speedBonusTimer := 0
    input := Input.none }

/-- Obstacle record (lobby-server.js lines 356-364).  `nearMissAwarded` is
the one-shot flag set at line 444, absent (falsy) at creation. -/
structure Obstacle where
  x : ℚ
  y : ℚ
  width : ℚ
  height : ℚ
  speed : ℚ
  playerNum : ℕ
  nearMissAwarded : Bool
deriving DecidableEq, Repr

/-- Boost-pad record (lobby-server.js lines 371-380). -/
structure BoostPad where
  x : ℚ
  y : ℚ
  width : ℚ
  height : ℚ
  speed : ℚ
  used : Bool
  playerNum : ℕ
deriving DecidableEq, Repr

/-- Target speed computation (lobby-server.js lines 269-275):
`targetSpeed` starts at 0, the `up` branch assigns `boosting ? 15 :
maxSpeed`, then the `down` branch assigns `-maxSpeed / 2`; a later
assignment overwrites an earlier one. -/
def targetSpeed (input : Input) (boosting : Bool) (maxSpeed : ℚ) : ℚ :=
  let t := 0
  let t := if input.up then (if boosting then 15 else maxSpeed) else t
  let t := if input.down then -maxSpeed / 2 else t
  t

/-- One execution of `GameLobby.updatePlayer` (lobby-server.js lines
254-352) for a player whose `input` is present.  `trig a = (sin a, cos a)`
is the trigonometry oracle; `now` is `Date.now()`.  The `scoreEvent`
emissions are side-effect-free for the state except for resetting
`speedBonusTimer` (line 334). -/
def updatePlayer (trig : ℚ → ℚ × ℚ) (now : ℤ) (p : Player) : Player :=
  -- boost timing (lines 260-266)
  let boostTime := if p.boosting then p.boostTime - 1 else p.boostTime
  let boostExpired := p.boosting && boostTime ≤ 0
  let boosting := if boostExpired then false else p.boosting
  let maxSpeed := if boostExpired then 8 else p.maxSpeed
  -- acceleration / deceleration (lines 268-280)
  let tgt := targetSpeed p.input boosting maxSpeed
  let speed := (p.speed + (tgt - p.speed) * (3/10)) * (19/20)
  -- steering (lines 282-296)
  let steeringSensitivity := min 1 (|speed| / 4)
  let maxSteer := 4 * steeringSensitivity
  let turnSpeed :=
    if p.input.left then max (p.turnSpeed - 2/5) (-maxSteer)
    else if p.input.right then min (p.turnSpeed + 2/5) maxSteer
    else p.turnSpeed * (17/20)
  let turnInfluence := min 1 (|speed| / 3)
  let angle := p.angle + (turnSpeed * (1/50)) * turnInfluence
  -- physics-based movement (lines 298-311)
  let forwardX := (trig angle).1
  let forwardY := -(trig angle).2
  let velocityX := (p.velocityX + forwardX * speed * (1/10)) * (19/20)
  let velocityY := (p.velocityY + forwardY * speed * (1/10)) * (19/20)
  -- position update and clamping (lines 310-315)
  let x := max 30 (min 370 (p.x + velocityX))
  let y := max 50 (min 550 (p.y + velocityY))
  -- passive scoring (lines 317-319)
  let speedPoints : ℤ := ⌊|speed| * (1/10)⌋
  let score := p.score + (speedPoints : ℚ) * p.multiplier
  -- speed bonus visual timer (lines 321-335); the emit has no state effect
  let speedBonusTimer := p.speedBonusTimer + 1
  let speedBonusTimer :=
    if speedBonusTimer ≥ 60 ∧ speedPoints > 0 then 0 else speedBonusTimer
  -- combo timer decay (lines 337-343)
  let comboTimer := if p.comboTimer > 0 then p.comboTimer - 1 else p.comboTimer
  let multiplier :=
    if p.comboTimer > 0 ∧ comboTimer = 0 then max 1 (p.multiplier - 1/2)
    else p.multiplier
  -- streak decay (lines 345-351)
  let decayFires := now - p.lastObstacleTime > 3000
  let streak :=
    if decayFires ∧ p.streak > 0 then p.streak - 1 else p.streak
  let multiplier :=
    if decayFires ∧ p.streak > 0 then 1 + (streak : ℚ) * (1/5)
    else multiplier
  let lastObstacleTime := if decayFires then now else p.lastObstacleTime
  { p with
    boostTime := boostTime, boosting := boosting, maxSpeed := maxSpeed
    speed := speed, turnSpeed := turnSpeed, angle := angle
    velocityX := velocityX, velocityY := velocityY, x := x, y := y
    score := score, speedBonusTimer := speedBonusTimer
    comboTimer := comboTimer, multiplier := multiplier
    streak := streak, lastObstacleTime := lastObstacleTime }

/-- The association list modelling a JavaScript object keyed by socket id:
insertion ordered, assignment to an existing key replaces in place
(`this.players[socketId] = ...`, line 56). -/
def upsert (k : String) (v : Player) :
    List (String × Player) → List (String × Player)
  | [] => [(k, v)]
  | kv :: rest =>
      if kv.1 = k then (k, v) :: rest else kv :: upsert k v rest

/-- The per-lobby simulation state `this.gameState` plus the player map
(lobby-server.js lines 35-41, 118-123). -/
structure SimState where
  players : List (String × Player)
  obstacles : List Obstacle
  boostPads : List BoostPad
deriving DecidableEq, Repr

/-- `Object.values(this.players).find(p => p.playerNum === obstacle.playerNum)`
followed by a mutation of the found player (lobby-server.js lines
390-398): the FIRST player with the matching seat number is updated. -/
def updateFirstByNum (pn : ℕ) (f : Player → Player) :
    List (String × Player) → List (String × Player)
  | [] => []
  | kv :: rest =>
      if kv.2.playerNum = pn then (kv.1, f kv.2) :: rest
      else kv :: updateFirstByNum pn f rest

/-- The survival award applied to the owner of an obstacle that left the
screen (lobby-server.js lines 393-397): `score += (5 + streak) *
multiplier`, `streak++`, `multiplier = min(5, 1 + streak * 0.2)`,
`lastObstacleTime = Date.now()`. -/
def survivalAward (now : ℤ) (p : Player) : Player :=
  { p with
    score := p.score + (5 + (p.streak : ℚ)) * p.multiplier
    streak := p.streak + 1
    multiplier := min 5 (1 + ((p.streak : ℚ) + 1) * (1/5))
    lastObstacleTime := now }

/-- `GameLobby.updateObstacles` (lobby-server.js lines 385-403): every
obstacle advances by `speed + 3`; one whose new `y` exceeds 650 is removed
and its owning seat receives the survival award. -/
def updateObstacles (now : ℤ) (s : SimState) : SimState :=
  let step := fun (acc : List (String × Player) × List Obstacle)
      (o : Obstacle) =>
    let o' := { o with y := o.y + o.speed + 3 }
    if o'.y > 650 then
      (updateFirstByNum o'.playerNum (survivalAward now) acc.1, acc.2)
    else
      (acc.1, acc.2 ++ [o'])
  let r := s.obstacles.foldl step (s.players, [])
  { s with players := r.1, obstacles := r.2 }

/-- `GameLobby.updateBoostPads` (lobby-server.js lines 405-410). -/
def updateBoostPads (s : SimState) : SimState :=
  { s with
    boostPads :=
      (s.boostPads.map (fun pad => { pad with y := pad.y + pad.speed + 3 }))
        |>.filter (fun pad => pad.y ≤ 650) }

/-- The axis-aligned bounding-box overlap test of the direct-collision
branch (lobby-server.js lines 423-426). -/
def boxOverlap (p : Player) (o : Obstacle) : Prop :=
  p.x < o.x + o.width ∧ p.x + p.width > o.x ∧
  p.y < o.y + o.height ∧ p.y + p.height > o.y

instance (p : Player) (o : Obstacle) : Decidable (boxOverlap p o) := by
  unfold boxOverlap; infer_instance

/-- The near-miss proximity test (lobby-server.js line 439): the source
compares `sqrt(dx^2 + dy^2) < 200`; since both sides are nonnegative this
is equivalent to `dx^2 + dy^2 < 200^2`, which is how it is stated here to
stay in ℚ. -/
def nearMissRange (p : Player) (o : Obstacle) : Prop :=
  ((p.x + p.width/2 - (o.x + o.width/2))^2 +
   (p.y + p.height/2 - (o.y + o.height/2))^2 < 40000) ∧
  o.y > p.y - 200 ∧ o.y < p.y + 200

instance (p : Player) (o : Obstacle) : Decidable (nearMissRange p o) := by
  unfold nearMissRange; infer_instance

/-- One player against one obstacle, the body of the inner `forEach` of
`GameLobby.checkCollisions` (lobby-server.js lines 415-475).  Returns the
updated player and obstacle. -/
def collideObstacle (p : Player) (o : Obstacle) : Player × Obstacle :=
  if o.playerNum = p.playerNum then
    if boxOverlap p o then
      -- direct collision (lines 428-436)
      ({ p with
          speed := p.speed * (3/10)
          velocityX := p.velocityX * (-(1/2))
          velocityY := p.velocityY * (-(1/2))
          score := p.score + (-50 - (p.streak : ℚ) * 5)
          streak := 0
          multiplier := 1
          nearMissCount := 0 },
       { o with y := 700 })
    else if nearMissRange p o then
      if !o.nearMissAwarded then
        -- near-miss award (lines 440-455)
        let p1 := { p with
          score := p.score + 25 * p.multiplier
          nearMissCount := p.nearMissCount + 1 }
        -- perfect bonus (lines 456-471)
        let p2 :=
          if p1.nearMissCount ≥ 2 then
            { p1 with
              score := p1.score + 100 * p1.multiplier
              nearMissCount := 0
              perfectCount := p1.perfectCount + 1 }
          else p1
        (p2, { o with nearMissAwarded := true })
      else (p, o)
    else (p, o)
  else (p, o)

/-- One player against one boost pad (lobby-server.js lines 478-497). -/
def collideBoostPad (now : ℤ) (p : Player) (pad : BoostPad) :
    Player × BoostPad :=
  if pad.playerNum = p.playerNum ∧ pad.used = false ∧
     p.x < pad.x + pad.width ∧ p.x + p.width > pad.x ∧
     p.y < pad.y + pad.height ∧ p.y + p.height > pad.y then
    ({ p with
        boosting := true
        boostTime := 180
        maxSpeed := 15
        score := p.score + (50 + (p.streak : ℚ) * 10) * p.multiplier
        streak := p.streak + 1
        multiplier := min 5 (1 + ((p.streak : ℚ) + 1) * (1/5))
        comboTimer := 300
        lastObstacleTime := now },
     { pad with used := true })
  else (p, pad)

/-- Fold of one player over the obstacle list, threading the mutated
obstacles (the inner `forEach` mutates the shared obstacle array, which
later players of the outer loop observe). -/
def playerVsObstacles (p : Player) (obs : List Obstacle) :
    Player × List Obstacle :=
  obs.foldl
    (fun acc o =>
      let r := collideObstacle acc.1 o
      (r.1, acc.2 ++ [r.2]))
    (p, [])

/-- Fold of one player over the boost-pad list. -/
def playerVsBoostPads (now : ℤ) (p : Player) (pads : List BoostPad) :
    Player × List BoostPad :=
  pads.foldl
    (fun acc pad =>
      let r := collideBoostPad now acc.1 pad
      (r.1, acc.2 ++ [r.2]))
    (p, [])

/-- `GameLobby.checkCollisions` (lobby-server.js lines 412-499): the outer
`forEach` over players, each checking obstacles then boost pads, with
mutations of the shared obstacle/pad arrays threaded through. -/
def checkCollisions (now : ℤ) (s : SimState) : SimState :=
  let r := s.players.foldl
    (fun (acc : List (String × Player) × List Obstacle × List BoostPad) kv =>
      let r1 := playerVsObstacles kv.2 acc.2.1
      let r2 := playerVsBoostPads now r1.1 acc.2.2
      (acc.1 ++ [(kv.1, r2.1)], r1.2, r2.2))
    ([], s.obstacles, s.boostPads)
  { players := r.1, obstacles := r.2.1, boostPads := r.2.2 }

/-- A `GameLobby` (lobby-server.js lines 31-47): the player map, the match
flags and the simulation state.  `gameStartTime` / `gameDuration` are set
by `startGame`; timers and socket bookkeeping are external. -/
structure GameLobby where
  id : String
  name : String
  players : List (String × Player)
  gameStarted : Bool
  gameEnded : Bool
  sim : SimState
  createdAt : ℤ
  gameStartTime : ℤ
  gameDuration : ℤ
  timeRemaining : ℤ
deriving DecidableEq, Repr

/-- `GameLobby.startGame` (lobby-server.js lines 112-135): set the running
flags, reset obstacles, boost pads and the 30-second clock.  The interval
timer and the `gameStart` broadcast are external effects. -/
def startGame (now : ℤ) (l : GameLobby) : GameLobby :=
  { l with
    gameStarted := true
    gameStartTime := now
    gameDuration := 30000
    gameEnded := false
    sim := { players := l.players, obstacles := [], boostPads := [] }
    timeRemaining := 30 }

/-- `GameLobby.addPlayer` (lobby-server.js lines 49-90): `none` when the
lobby already has 2 players (the source returns `false` and changes
nothing), otherwise the new player is stored under its socket id with
`playerNum = currentCount + 1` and, when the count reaches 2, the game
starts. -/
def addPlayer (socketId playerName : String) (now : ℤ) (l : GameLobby) :
    Option GameLobby :=
  if l.players.length ≥ 2 then none
  else
    let playerNum := l.players.length + 1
    let players := upsert socketId
      (initPlayer socketId playerNum playerName now) l.players
    let l := { l with players := players }
    some (if players.length = 2 then startGame now l else l)

/-- `GameLobby.removePlayer` (lobby-server.js lines 92-110): delete the
socket's entry; the returned flag is `true` when the lobby became empty
and should be deleted by the caller.  (The `endGame` call for a
mid-match departure only touches fields outside the scope of the claims
proved here and is not needed by them.) -/
def removePlayer (socketId : String) (l : GameLobby) : GameLobby × Bool :=
  let players := l.players.filter (fun kv => kv.1 ≠ socketId)
  ({ l with players := players }, players.length = 0)

/-- A fresh lobby as built by the constructor (lobby-server.js lines
32-47): empty maps, then the creator seated by `addPlayer`.  With one
player `addPlayer` always succeeds, so the `Option` is collapsed with
`getD` on the pre-join state. -/
def newLobby (lobbyId lobbyName creatorId creatorName : String) (now : ℤ) :
    GameLobby :=
  let base : GameLobby :=
    { id := lobbyId, name := lobbyName, players := []
      gameStarted := false, gameEnded := false
      sim := { players := [], obstacles := [], boostPads := [] }
      createdAt := now, gameStartTime := 0, gameDuration := 30000
      timeRemaining := 0 }
  (addPlayer creatorId creatorName now base).getD base

/-- `GameLobby.restartGame` (lobby-server.js lines 171-189): reset, for
every seat, position, speed, angle, velocity, score, streak, multiplier
and the boost flags, then start a new game.  Note the reset list does not
mention `maxSpeed`. -/
def resetPlayerForRestart (p : Player) : Player :=
  { p with
    x := 200, y := 500
    speed := 0, angle := 0
    velocityX := 0, velocityY := 0
    score := 0, streak := 0, multiplier := 1
    boosting := false, boostTime := 0 }

/-- `GameLobby.restartGame` (lobby-server.js lines 171-189). -/
def restartGame (now : ℤ) (l : GameLobby) : GameLobby :=
  startGame now
    { l with players := l.players.map (fun kv => (kv.1, resetPlayerForRestart kv.2)) }

/-- Result of the `joinLobby` socket handler (lobby-server.js lines
557-577) restricted to an existing lobby. -/
inductive JoinResult where
  | joined
  | lobbyFull
deriving DecidableEq, Repr

/-- The `joinLobby` handler for an existing lobby (lobby-server.js lines
565-576): on success the updated lobby, otherwise `lobbyFull` with the
lobby untouched. -/
def joinLobby (socketId playerName : String) (now : ℤ) (l : GameLobby) :
    JoinResult × GameLobby :=
  match addPlayer socketId playerName now l with
  | some l' => (JoinResult.joined, l')
  | none => (JoinResult.lobbyFull, l)

/-- The lobby-membership operations driven by the socket handlers:
a join attempt (`joinLobby`, lines 557-577) and a leave
(`leaveLobby` / `disconnect`, lines 580-592 and 621-638). -/
inductive LobbyOp where
  | join (socketId playerName : String) (now : ℤ)
  | leave (socketId : String)
deriving DecidableEq, Repr

/-- Apply one membership operation to a lobby, ignoring the
delete-when-empty flag (the lobby value itself is what the seat-count
invariant is about). -/
def applyOp (l : GameLobby) : LobbyOp → GameLobby
  | LobbyOp.join sid name now => (joinLobby sid name now l).2
  | LobbyOp.leave sid => (removePlayer sid l).1

/-- Apply a sequence of membership operations. -/
def applyOps (l : GameLobby) (ops : List LobbyOp) : GameLobby :=
  ops.foldl applyOp l

/-- The background-sweep deletion criterion (lobby-server.js lines
656-661): a lobby is collected when its player map is empty AND more than
10 minutes have passed since its CREATION timestamp. -/
def cleanupShouldDelete (now : ℤ) (l : GameLobby) : Bool :=
  l.players.length = 0 && (now - l.createdAt > 10 * 60 * 1000)

/-- One step of the empty-duration bookkeeping: apply the operation and
track the moment since which the lobby has been continuously empty. -/
def emptyStep (acc : GameLobby × Option ℤ) (top : ℤ × LobbyOp) :
    GameLobby × Option ℤ :=
  let l' := applyOp acc.1 top.2
  (l', if l'.players.length = 0 then
         (if acc.1.players.length = 0 then acc.2 else some top.1)
       else none)

/-- The moment since which a lobby has been continuously empty, derived
from its membership history: `none` while players are seated, set to the
timestamp of the operation that emptied it.  (The source stores no such
field; this is the spec-side notion of "empty for more than 10 minutes",
used to compare the sweep against the spec.) -/
def emptySince (creationTime : ℤ) (l0 : GameLobby)
    (ops : List (ℤ × LobbyOp)) : Option ℤ :=
  (ops.foldl emptyStep
    (l0, if l0.players.length = 0 then some creationTime else none)).2

/-- The lobby resulting from a timed membership history. -/
def lobbyAfter (l0 : GameLobby) (ops : List (ℤ × LobbyOp)) : GameLobby :=
  applyOps l0 (ops.map (·.2))

/-- One execution of `GameLobby.updateGame` (lobby-server.js lines
217-252) on a tick where the timer has not expired and both spawn rolls
fail (`Math.random()` returned values ≥ 0.01 and ≥ 0.005): update every
player, advance obstacles and boost pads, then resolve collisions. -/
def tickNoSpawn (trig : ℚ → ℚ × ℚ) (now : ℤ) (s : SimState) : SimState :=
  let s1 : SimState :=
    { s with players := s.players.map (fun kv => (kv.1, updatePlayer trig now kv.2)) }
  checkCollisions now (updateBoostPads (updateObstacles now s1))

/-- Iterate `tickNoSpawn`, tick `i` executing at wall time `times i`. -/
def runTicks (trig : ℚ → ℚ × ℚ) (times : ℕ → ℤ) (s : SimState) :
    ℕ → SimState
  | 0 => s
  | n + 1 => tickNoSpawn trig (times n) (runTicks trig times s n)

/-- `n` successive survival awards for one seat (the seat's obstacle
leaving the screen `n` times, lobby-server.js lines 389-399), all at wall
time 0. -/
def survivalNTimes : ℕ → Player → Player
  | 0, p => p
  | n + 1, p => survivalAward 0 (survivalNTimes n p)

/-- The input vector with only accelerate held. -/
def holdUpInput : Input := ⟨true, false, false, false⟩

/-- Fixture: a single freshly seated player holding accelerate, no
obstacles or boost pads (the suppressed-spawn scenario). -/
def holdUpStart : SimState :=
  { players := [("a", { initPlayer "a" 1 "A" 0 with input := holdUpInput })]
    obstacles := []
    boostPads := [] }

/-- The first seated player's score (scenario states here have exactly one
seat). -/
def firstScore (s : SimState) : ℚ :=
  ((s.players.head?).map (fun kv => kv.2.score)).getD 0

/-- Proof invariant for the hold-accelerate scenario: accelerate held, no
boost, base top speed, untouched scoring state, and a speed that stays
inside `[0, 8]` (so that `speedPoints = floor(|speed| * 0.1)` is 0). -/
def HoldUpInv (p : Player) : Prop :=
  p.input = holdUpInput ∧ p.boosting = false ∧ p.maxSpeed = 8 ∧
  p.score = 0 ∧ p.multiplier = 1 ∧ p.streak = 0 ∧ p.comboTimer = 0 ∧
  0 ≤ p.speed ∧ p.speed ≤ 8

/-- Fixture: a freshly seated player (at the spawn point (200,500)). -/
def fixturePlayer : Player := initPlayer "a" 1 "A" 0

/-- Fixture: an obstacle of seat 1 whose box coincides with the spawn
box, so it overlaps `fixturePlayer`. -/
def overlapObstacle : Obstacle :=
  { x := 200, y := 500, width := 30, height := 60, speed := 2
    playerNum := 1, nearMissAwarded := false }

/-- Fixture: an obstacle of seat 1 one hundred units to the right of the
spawn point: no box overlap, but within the near-miss range. -/
def nearbyObstacle : Obstacle :=
  { x := 300, y := 500, width := 30, height := 60, speed := 2
    playerNum := 1, nearMissAwarded := false }

/-- Fixture: a two-seat lobby whose first seat still has an active boost
(`maxSpeed = 15`) when the match ends. -/
def boostedLobby : GameLobby :=
  let l := newLobby "L" "lob" "A" "Alice" 0
  { l with
    players :=
      [("A", { initPlayer "A" 1 "Alice" 0 with
                maxSpeed := 15, boosting := true, boostTime := 120 }),
       ("B", initPlayer "B" 2 "Bob" 0)]
    gameStarted := true, gameEnded := true }

/-- Fixture: the lobby history for the sweep counterexample — created at
time 0 by its single player, who leaves at 654 000 ms (10.9 minutes). -/
def sweepL0 : GameLobby := newLobby "L" "lob" "A" "Alice" 0

/-- The timed operations of the sweep counterexample history. -/
def sweepOps : List (ℤ × LobbyOp) := [(654000, LobbyOp.leave "A")]

/-- Fixture: a lobby filled to capacity (creator plus one joiner). -/
def fullLobby : GameLobby :=
  applyOps (newLobby "L" "lob" "A" "Alice" 0) [LobbyOp.join "B" "Bob" 10]

/-- Fixture: the membership history of the duplicate-seat scenario — the
creator leaves a full lobby and a third identity then joins. -/
def dupSeatLobby : GameLobby :=
  applyOps (newLobby "L" "lob" "A" "Alice" 0)
    [LobbyOp.join "B" "Bob" 10, LobbyOp.leave "A", LobbyOp.join "C" "Carol" 20]

/-! ## Theorems -/

/-- C2 counterexample: with both accelerate and brake held (not boosting,
`maxSpeed = 8`) the target speed is `-maxSpeed/2 = -4`, not the accelerate
target `maxSpeed = 8` the claim asserts: the brake assignment executes
after the accelerate assignment and overwrites it. -/
theorem c2_counterexample :
    targetSpeed ⟨true, true, false, false⟩ false 8 = -4 ∧
    targetSpeed ⟨true, true, false, false⟩ false 8 ≠ 8 := by
  norm_num [targetSpeed]

/-- C2 (amended): in the per-tick physics integration, when both
accelerate and brake are held in the same input vector, the target speed
equals the brake target `-maxSpeed/2` — brake takes priority over
accelerate, because its assignment comes second. -/
theorem c2_brake_priority (i : Input) (boosting : Bool) (maxSpeed : ℚ)
    (hup : i.up = true) (hdown : i.down = true) :
    targetSpeed i boosting maxSpeed = -maxSpeed / 2 := by
  simp [targetSpeed, hdown]

/-- Witness for `c2_brake_priority` at a concrete input. -/
theorem c2_brake_priority_witness :
    targetSpeed ⟨true, true, false, false⟩ false 8 = -8 / 2 :=
  c2_brake_priority ⟨true, true, false, false⟩ false 8 rfl rfl

/-- C10: seat numbers are not unique.  In the concrete history where
Alice creates the lobby (seat 1), Bob joins (seat 2), Alice leaves, and
Carol joins, Carol is assigned seat `count + 1 = 2`, equal to Bob's
remaining seat: two players of the same lobby hold seat 2
simultaneously. -/
theorem c10_duplicate_seats :
    dupSeatLobby.players.map (fun kv => (kv.1, kv.2.playerNum)) =
      [("B", 2), ("C", 2)] := by
  decide

/-- C1 (code bug): the streak-decay recomputation `multiplier =
1 + streak * 0.2` (lobby-server.js line 348) has no `min(5, ·)` cap,
unlike the survival and boost paths (lines 396, 493).  A seat that has
survived 22 obstacles has `streak = 22` and `multiplier = 5`; when the
3-second decay then fires, the multiplier becomes `1 + 21 * 0.2 = 5.2 >
5`, violating the `multiplier ∈ [1,5]` invariant the claim asserts. -/
theorem c1_multiplier_exceeds_cap :
    (survivalNTimes 22 (initPlayer "a" 1 "A" 0)).streak = 22 ∧
    (survivalNTimes 22 (initPlayer "a" 1 "A" 0)).multiplier = 5 ∧
    (updatePlayer (fun _ => (0, 1)) 3001
        (survivalNTimes 22 (initPlayer "a" 1 "A" 0))).multiplier = 26/5 ∧
    ¬ ((updatePlayer (fun _ => (0, 1)) 3001
        (survivalNTimes 22 (initPlayer "a" 1 "A" 0))).multiplier ≤ 5) := by
  norm_num [survivalNTimes, survivalAward, initPlayer, updatePlayer,
    targetSpeed, Input.none]

/-- C5 counterexample: a restart from the finished phase does NOT restore
`maxSpeed` to its initial construction value 8.  In `boostedLobby` seat 1
finished the match with an active boost (`maxSpeed = 15`); after
`restartGame` its `maxSpeed` is still 15. -/
theorem c5_counterexample :
    (restartGame 100 boostedLobby).players.map (fun kv => kv.2.maxSpeed) =
      [15, 8] ∧ (15 : ℚ) ≠ 8 := by
  norm_num [restartGame, startGame, resetPlayerForRestart, boostedLobby,
    newLobby, addPlayer, upsert, initPlayer]

/-- C5 (amended): a restart resets, for every seat, score, streak,
multiplier, position, velocity, angle, speed, `boosting` and `boostTime`
to their initial construction values and immediately re-enters the
running phase — but `maxSpeed` is left at its pre-restart value (it is
not reset to 8). -/
theorem c5_restart_resets (now : ℤ) (l : GameLobby) :
    (restartGame now l).gameStarted = true ∧
    (restartGame now l).gameEnded = false ∧
    (restartGame now l).players =
      l.players.map (fun kv => (kv.1, resetPlayerForRestart kv.2)) ∧
    ∀ p : Player,
      (resetPlayerForRestart p).x = 200 ∧
      (resetPlayerForRestart p).y = 500 ∧
      (resetPlayerForRestart p).speed = 0 ∧
      (resetPlayerForRestart p).angle = 0 ∧
      (resetPlayerForRestart p).velocityX = 0 ∧
      (resetPlayerForRestart p).velocityY = 0 ∧
      (resetPlayerForRestart p).score = 0 ∧
      (resetPlayerForRestart p).streak = 0 ∧
      (resetPlayerForRestart p).multiplier = 1 ∧
      (resetPlayerForRestart p).boosting = false ∧
      (resetPlayerForRestart p).boostTime = 0 ∧
      (resetPlayerForRestart p).maxSpeed = p.maxSpeed := by
  refine ⟨rfl, rfl, rfl, fun p => ?_⟩
  simp [resetPlayerForRestart]

/-- A no-spawn tick on a single-seat state with no obstacles or pads only
runs the player physics. -/
theorem tickNoSpawn_single (trig : ℚ → ℚ × ℚ) (now : ℤ) (k : String)
    (p : Player) :
    tickNoSpawn trig now ⟨[(k, p)], [], []⟩ =
      ⟨[(k, updatePlayer trig now p)], [], []⟩ := by
  simp [tickNoSpawn, updateObstacles, updateBoostPads, checkCollisions,
    playerVsObstacles, playerVsBoostPads]

/-- The per-tick player update preserves the hold-accelerate invariant:
with accelerate held, no boost and `maxSpeed = 8`, the new speed is
`(speed + (8 - speed) * 0.3) * 0.95 ∈ [2.28, 7.6] ⊆ [0, 8]`, so
`speedPoints = floor(|speed| * 0.1) = 0` and the score does not move. -/
theorem updatePlayer_holdUp (trig : ℚ → ℚ × ℚ) (now : ℤ) (p : Player)
    (h : HoldUpInv p) : HoldUpInv (updatePlayer trig now p) := by
  obtain ⟨hin, hb, hms, hsc, hmul, hstreak, hcombo, hs0, hs8⟩ := h
  have hb0 : (0:ℚ) ≤ (p.speed + (8 - p.speed) * (3/10)) * (19/20) := by
    nlinarith
  have hb8 : (p.speed + (8 - p.speed) * (3/10)) * (19/20) ≤ 8 := by
    nlinarith
  refine ⟨?_, ?_, ?_, ?_, ?_, ?_, ?_, ?_, ?_⟩ <;>
    simp [updatePlayer, hin, hb, hms, hsc, hmul, hstreak, hcombo,
      targetSpeed, holdUpInput] <;>
    first
      | nlinarith
      | (rw [abs_of_nonneg hb0]; nlinarith)

/-- Every state of the hold-accelerate run keeps its single seat inside
the invariant, with no obstacles or boost pads. -/
theorem runTicks_holdUp (trig : ℚ → ℚ × ℚ) (times : ℕ → ℤ) (n : ℕ) :
    ∃ p : Player,
      runTicks trig times holdUpStart n = ⟨[("a", p)], [], []⟩ ∧
      HoldUpInv p := by
  induction n with
  | zero =>
      refine ⟨_, rfl, ?_⟩
      refine ⟨rfl, rfl, rfl, rfl, rfl, rfl, rfl, ?_, ?_⟩ <;>
        norm_num [holdUpStart, initPlayer]
  | succ n ih =>
      obtain ⟨p, hp, hinv⟩ := ih
      refine ⟨updatePlayer trig (times n) p, ?_,
        updatePlayer_holdUp trig (times n) p hinv⟩
      rw [runTicks, hp, tickNoSpawn_single]

/-- C3 counterexample: holding accelerate from the initial state with no
spawns, the score does NOT strictly increase: it is 0 after the first
tick and still 0 after the second (the speed after one tick is 2.28, so
`speedPoints = floor(0.228) = 0`). -/
theorem c3_counterexample :
    firstScore (runTicks (fun _ => (0, 1)) (fun _ => 0) holdUpStart 1) = 0 ∧
    firstScore (runTicks (fun _ => (0, 1)) (fun _ => 0) holdUpStart 2) = 0 ∧
    ¬ (firstScore (runTicks (fun _ => (0, 1)) (fun _ => 0) holdUpStart 1) <
       firstScore (runTicks (fun _ => (0, 1)) (fun _ => 0) holdUpStart 2)) := by
  obtain ⟨p1, hp1, hinv1⟩ := runTicks_holdUp (fun _ => (0, 1)) (fun _ => 0) 1
  obtain ⟨p2, hp2, hinv2⟩ := runTicks_holdUp (fun _ => (0, 1)) (fun _ => 0) 2
  rw [hp1, hp2]
  simp [firstScore, hinv1.2.2.2.1, hinv2.2.2.2.1]

/-- C3 (amended): for a seat starting from the initial state that holds
accelerate for any number of ticks with no spawns, the score stays
exactly 0 on every tick: the speed remains in `[0, 8]` (it converges
toward about 6.8, short of `maxSpeed = 8`, because of the 0.95 friction),
so `speedPoints = floor(|speed| * 0.1)` is 0 on every tick and nothing is
ever added to the score. -/
theorem c3_score_stays_zero (trig : ℚ → ℚ × ℚ) (times : ℕ → ℤ) (n : ℕ) :
    ∃ p : Player,
      runTicks trig times holdUpStart n = ⟨[("a", p)], [], []⟩ ∧
      p.score = 0 ∧ 0 ≤ p.speed ∧ p.speed ≤ 8 := by
  obtain ⟨p, hp, hinv⟩ := runTicks_holdUp trig times n
  exact ⟨p, hp, hinv.2.2.2.1, hinv.2.2.2.2.2.2.2⟩

/-- `checkCollisions` on a single-seat state with one obstacle and no
boost pads reduces to one `collideObstacle` encounter. -/
theorem checkCollisions_single (now : ℤ) (k : String) (p : Player)
    (o : Obstacle) :
    checkCollisions now ⟨[(k, p)], [o], []⟩ =
      ⟨[(k, (collideObstacle p o).1)], [(collideObstacle p o).2], []⟩ := by
  simp [checkCollisions, playerVsObstacles, playerVsBoostPads]

/-- The direct-collision branch of `collideObstacle`, spelled out. -/
theorem collideObstacle_overlap (p : Player) (o : Obstacle)
    (hpn : o.playerNum = p.playerNum) (hov : boxOverlap p o) :
    collideObstacle p o =
      ({ p with
          speed := p.speed * (3/10)
          velocityX := p.velocityX * (-(1/2))
          velocityY := p.velocityY * (-(1/2))
          score := p.score + (-50 - (p.streak : ℚ) * 5)
          streak := 0
          multiplier := 1
          nearMissCount := 0 },
       { o with y := 700 }) := by
  simp [collideObstacle, hpn, hov]

/-- `updateObstacles` on a single-seat state whose only obstacle sits at
`y = 700`: the obstacle crosses 650, is removed, and its owner receives
the survival award. -/
theorem updateObstacles_prune_single (now : ℤ) (k : String) (q : Player)
    (o : Obstacle) (hy : o.y = 700) (hsp : 0 ≤ o.speed)
    (hpn : o.playerNum = q.playerNum) :
    updateObstacles now ⟨[(k, q)], [o], []⟩ =
      ⟨[(k, survivalAward now q)], [], []⟩ := by
  have h650 : o.y + o.speed + 3 > 650 := by rw [hy]; linarith
  simp [updateObstacles, updateFirstByNum, h650, hpn]

/-- C4: a direct bounding-box overlap with a same-seat obstacle changes
the score by exactly `-(50 + streak_before * 5)`, resets streak to 0,
multiplier to 1 and the consecutive-near-miss counter to 0, relocates the
obstacle to `y = 700`, and the next tick's `updateObstacles` no longer
contains that obstacle. -/
theorem c4_collision_effects (now next : ℤ) (k : String) (p : Player)
    (o : Obstacle) (hpn : o.playerNum = p.playerNum)
    (hov : boxOverlap p o) (hsp : 0 ≤ o.speed) :
    ∃ p' o',
      checkCollisions now ⟨[(k, p)], [o], []⟩ = ⟨[(k, p')], [o'], []⟩ ∧
      p'.score = p.score - (50 + (p.streak : ℚ) * 5) ∧
      p'.streak = 0 ∧ p'.multiplier = 1 ∧ p'.nearMissCount = 0 ∧
      o'.y = 700 ∧
      (updateObstacles next
        (checkCollisions now ⟨[(k, p)], [o], []⟩)).obstacles = [] := by
  rw [checkCollisions_single, collideObstacle_overlap p o hpn hov]
  refine ⟨_, _, rfl, by ring, rfl, rfl, rfl, rfl, ?_⟩
  have h650 : (700 : ℚ) + o.speed + 3 > 650 := by linarith
  simp [updateObstacles, updateFirstByNum, h650]

/-- Witness for `c4_collision_effects`: the freshly seated player and an
obstacle whose box coincides with the spawn box. -/
theorem c4_collision_effects_witness :
    boxOverlap fixturePlayer overlapObstacle ∧
    (∃ p' o',
      checkCollisions 0 ⟨[("a", fixturePlayer)], [overlapObstacle], []⟩ =
        ⟨[("a", p')], [o'], []⟩ ∧
      p'.score = fixturePlayer.score - (50 + (fixturePlayer.streak : ℚ) * 5) ∧
      p'.streak = 0 ∧ p'.multiplier = 1 ∧ p'.nearMissCount = 0 ∧
      o'.y = 700 ∧
      (updateObstacles 17
        (checkCollisions 0 ⟨[("a", fixturePlayer)], [overlapObstacle], []⟩)).obstacles = []) :=
  ⟨by norm_num [boxOverlap, fixturePlayer, overlapObstacle, initPlayer],
   c4_collision_effects 0 17 "a" fixturePlayer overlapObstacle rfl
     (by norm_num [boxOverlap, fixturePlayer, overlapObstacle, initPlayer])
     (by norm_num [overlapObstacle])⟩

/-- C9: an obstacle consumed by a collision (sitting at `y = 700`) is
pruned by the next `updateObstacles`, which pays the colliding seat the
survival award `(5 + streak) * multiplier = (5 + 0) * 1 = 5`, increments
its streak from 0 to 1, and refreshes its decay timestamp. -/
theorem c9_collision_then_survival (now next : ℤ) (k : String) (p : Player)
    (o : Obstacle) (hpn : o.playerNum = p.playerNum)
    (hov : boxOverlap p o) (hsp : 0 ≤ o.speed) :
    ∃ p' : Player,
      (checkCollisions now ⟨[(k, p)], [o], []⟩).players = [(k, p')] ∧
      p'.streak = 0 ∧ p'.multiplier = 1 ∧
      updateObstacles next (checkCollisions now ⟨[(k, p)], [o], []⟩) =
        ⟨[(k, survivalAward next p')], [], []⟩ ∧
      (survivalAward next p').score = p'.score + 5 ∧
      (survivalAward next p').streak = 1 ∧
      (survivalAward next p').lastObstacleTime = next := by
  rw [checkCollisions_single, collideObstacle_overlap p o hpn hov]
  refine ⟨_, rfl, rfl, rfl, ?_, ?_, rfl, rfl⟩
  · exact updateObstacles_prune_single next k _ _ rfl hsp hpn
  · simp [survivalAward]

/-- Witness for `c9_collision_then_survival` at the overlap fixture. -/
theorem c9_collision_then_survival_witness :
    boxOverlap fixturePlayer overlapObstacle ∧
    (∃ p' : Player,
      (checkCollisions 0 ⟨[("a", fixturePlayer)], [overlapObstacle], []⟩).players =
        [("a", p')] ∧
      p'.streak = 0 ∧ p'.multiplier = 1 ∧
      updateObstacles 17
          (checkCollisions 0 ⟨[("a", fixturePlayer)], [overlapObstacle], []⟩) =
        ⟨[("a", survivalAward 17 p')], [], []⟩ ∧
      (survivalAward 17 p').score = p'.score + 5 ∧
      (survivalAward 17 p').streak = 1 ∧
      (survivalAward 17 p').lastObstacleTime = 17) :=
  ⟨by norm_num [boxOverlap, fixturePlayer, overlapObstacle, initPlayer],
   c9_collision_then_survival 0 17 "a" fixturePlayer overlapObstacle rfl
     (by norm_num [boxOverlap, fixturePlayer, overlapObstacle, initPlayer])
     (by norm_num [overlapObstacle])⟩

/-- The near-miss branch of `collideObstacle` for an un-awarded obstacle
and a seat with no running near-miss count. -/
theorem collideObstacle_nearMiss (p : Player) (o : Obstacle)
    (hpn : o.playerNum = p.playerNum) (hov : ¬ boxOverlap p o)
    (hnm : nearMissRange p o) (hflag : o.nearMissAwarded = false)
    (hcnt : p.nearMissCount = 0) :
    collideObstacle p o =
      ({ p with
          score := p.score + 25 * p.multiplier
          nearMissCount := 1 },
       { o with nearMissAwarded := true }) := by
  simp [collideObstacle, hpn, hov, hnm, hflag, hcnt]

/-- An already-awarded obstacle that does not overlap the player leaves
both the player and the obstacle untouched. -/
theorem collideObstacle_noop (q : Player) (o : Obstacle)
    (hov : ¬ boxOverlap q o) (hflag : o.nearMissAwarded = true) :
    collideObstacle q o = (q, o) := by
  by_cases h : o.playerNum = q.playerNum <;>
    simp [collideObstacle, h, hov, hflag]

/-- C7: a near miss pays `25 * multiplier` exactly once per obstacle: the
first resolving tick awards it and sets the obstacle's one-shot
`nearMissAwarded` flag; every further collision pass (any number of
consecutive ticks within range) leaves the state completely unchanged. -/
theorem c7_near_miss_once (now : ℤ) (k : String) (p : Player) (o : Obstacle)
    (hpn : o.playerNum = p.playerNum) (hov : ¬ boxOverlap p o)
    (hnm : nearMissRange p o) (hflag : o.nearMissAwarded = false)
    (hcnt : p.nearMissCount = 0) :
    ∃ p' o',
      checkCollisions now ⟨[(k, p)], [o], []⟩ = ⟨[(k, p')], [o'], []⟩ ∧
      p'.score = p.score + 25 * p.multiplier ∧
      o'.nearMissAwarded = true ∧
      ∀ n : ℕ,
        (checkCollisions now)^[n] (checkCollisions now ⟨[(k, p)], [o], []⟩) =
          checkCollisions now ⟨[(k, p)], [o], []⟩ := by
  rw [checkCollisions_single, collideObstacle_nearMiss p o hpn hov hnm hflag hcnt]
  have hov' : ¬ boxOverlap
      { p with score := p.score + 25 * p.multiplier, nearMissCount := 1 }
      { o with nearMissAwarded := true } := by
    simpa [boxOverlap] using hov
  have hfix : checkCollisions now
      ⟨[(k, { p with score := p.score + 25 * p.multiplier, nearMissCount := 1 })],
        [{ o with nearMissAwarded := true }], []⟩ =
      ⟨[(k, { p with score := p.score + 25 * p.multiplier, nearMissCount := 1 })],
        [{ o with nearMissAwarded := true }], []⟩ := by
    rw [checkCollisions_single, collideObstacle_noop _ _ hov' rfl]
  refine ⟨_, _, rfl, rfl, rfl, ?_⟩
  intro n
  induction n with
  | zero => simp
  | succ n ih => rw [Function.iterate_succ_apply', ih, hfix]

/-- Witness for `c7_near_miss_once`: the freshly seated player with a
same-seat obstacle 100 units to its right — inside the near-miss radius
but not overlapping. -/
theorem c7_near_miss_once_witness :
    nearMissRange fixturePlayer nearbyObstacle ∧
    ¬ boxOverlap fixturePlayer nearbyObstacle ∧
    (∃ p' o',
      checkCollisions 0 ⟨[("a", fixturePlayer)], [nearbyObstacle], []⟩ =
        ⟨[("a", p')], [o'], []⟩ ∧
      p'.score = fixturePlayer.score + 25 * fixturePlayer.multiplier ∧
      o'.nearMissAwarded = true ∧
      ∀ n : ℕ,
        (checkCollisions 0)^[n]
            (checkCollisions 0 ⟨[("a", fixturePlayer)], [nearbyObstacle], []⟩) =
          checkCollisions 0 ⟨[("a", fixturePlayer)], [nearbyObstacle], []⟩) :=
  ⟨by norm_num [nearMissRange, fixturePlayer, nearbyObstacle, initPlayer],
   by norm_num [boxOverlap, fixturePlayer, nearbyObstacle, initPlayer],
   c7_near_miss_once 0 "a" fixturePlayer nearbyObstacle rfl
     (by norm_num [boxOverlap, fixturePlayer, nearbyObstacle, initPlayer])
     (by norm_num [nearMissRange, fixturePlayer, nearbyObstacle, initPlayer])
     rfl rfl⟩

/-- Upserting into the player map grows it by at most one entry. -/
theorem upsert_length_le (k : String) (v : Player)
    (m : List (String × Player)) : (upsert k v m).length ≤ m.length + 1 := by
  induction m with
  | nil => simp [upsert]
  | cons kv rest ih =>
      by_cases h : kv.1 = k <;> simp [upsert, h] <;> omega

/-- A successful `addPlayer` never leaves more than 2 seats occupied: the
guard rejects when 2 are already seated, and otherwise at most one entry
is added. -/
theorem addPlayer_length (sid name : String) (now : ℤ) (l l' : GameLobby)
    (h : addPlayer sid name now l = some l') : l'.players.length ≤ 2 := by
  unfold addPlayer at h
  split at h
  · exact absurd h (by simp)
  · rename_i hlen
    have hle : l.players.length + 1 ≤ 2 := by omega
    have := upsert_length_le sid
      (initPlayer sid (l.players.length + 1) name now) l.players
    simp only [Option.some.injEq] at h
    subst h
    split <;> simp [startGame] <;> omega

/-- A join attempt on a lobby that already seats 2 players reports
`lobbyFull` and returns the lobby unchanged. -/
theorem joinLobby_full (sid name : String) (now : ℤ) (l : GameLobby)
    (h : l.players.length = 2) :
    joinLobby sid name now l = (JoinResult.lobbyFull, l) := by
  simp [joinLobby, addPlayer, h]

/-- Joins and leaves preserve the 2-seat capacity bound. -/
theorem applyOp_length (l : GameLobby) (op : LobbyOp)
    (h : l.players.length ≤ 2) : (applyOp l op).players.length ≤ 2 := by
  cases op with
  | join sid name now =>
      simp only [applyOp, joinLobby]
      cases hap : addPlayer sid name now l with
      | none => simpa using h
      | some l' => simpa using addPlayer_length sid name now l l' hap
  | leave sid =>
      simp only [applyOp, removePlayer]
      calc (l.players.filter (fun kv => kv.1 ≠ sid)).length
          ≤ l.players.length := List.length_filter_le _ _
        _ ≤ 2 := h

/-- A fresh lobby seats exactly its creator. -/
theorem newLobby_length (lid lname cid cname : String) (t : ℤ) :
    (newLobby lid lname cid cname t).players.length = 1 := by
  simp [newLobby, addPlayer, upsert]

/-- C8: for every lobby reachable from creation by any sequence of joins
and leaves, the seat count is at most 2 (hence in `{0,1,2}`), and a join
attempt on a lobby that already seats 2 players yields `lobbyFull` and
returns the lobby — its player map and every seated player — unchanged. -/
theorem c8_capacity (lid lname cid cname : String) (t : ℤ)
    (ops : List LobbyOp) :
    (applyOps (newLobby lid lname cid cname t) ops).players.length ≤ 2 ∧
    ∀ sid pname : String, ∀ now : ℤ,
      (applyOps (newLobby lid lname cid cname t) ops).players.length = 2 →
      joinLobby sid pname now (applyOps (newLobby lid lname cid cname t) ops) =
        (JoinResult.lobbyFull,
          applyOps (newLobby lid lname cid cname t) ops) := by
  have hlen : ∀ (os : List LobbyOp) (l : GameLobby),
      l.players.length ≤ 2 → (applyOps l os).players.length ≤ 2 := by
    intro os
    induction os with
    | nil => intro l h; simpa [applyOps] using h
    | cons op rest ih =>
        intro l h
        simpa [applyOps] using ih (applyOp l op) (applyOp_length l op h)
  have h2 : (applyOps (newLobby lid lname cid cname t) ops).players.length ≤ 2 :=
    hlen ops _ (by rw [newLobby_length]; omega)
  exact ⟨h2, fun sid pname now hfull => joinLobby_full sid pname now _ hfull⟩

/-- Witness for `c8_capacity`: a full lobby (Alice created, Bob joined)
rejects Carol with `lobbyFull` and is unchanged. -/
theorem c8_capacity_witness :
    fullLobby.players.length ≤ 2 ∧
    joinLobby "C" "Carol" 20 fullLobby = (JoinResult.lobbyFull, fullLobby) :=
  ⟨(c8_capacity "L" "lob" "A" "Alice" 0 [LobbyOp.join "B" "Bob" 10]).1,
   (c8_capacity "L" "lob" "A" "Alice" 0 [LobbyOp.join "B" "Bob" 10]).2
     "C" "Carol" 20 (by decide)⟩

/-- `addPlayer` never changes the creation timestamp. -/
theorem addPlayer_createdAt (sid name : String) (now : ℤ) (l l' : GameLobby)
    (h : addPlayer sid name now l = some l') : l'.createdAt = l.createdAt := by
  unfold addPlayer at h
  split at h
  · exact absurd h (by simp)
  · simp only [Option.some.injEq] at h
    subst h
    split <;> simp [startGame]

/-- Joins and leaves never change the creation timestamp. -/
theorem applyOp_createdAt (l : GameLobby) (op : LobbyOp) :
    (applyOp l op).createdAt = l.createdAt := by
  cases op with
  | join sid name now =>
      simp only [applyOp, joinLobby]
      cases hap : addPlayer sid name now l with
      | none => rfl
      | some l' => exact addPlayer_createdAt sid name now l l' hap
  | leave sid => simp [applyOp, removePlayer]

/-- Invariant of the empty-duration bookkeeping fold: whenever it reports
`some te`, the lobby is currently empty and `te` is bounded below by `c`
(which bounds the creation time and every operation timestamp). -/
theorem emptySince_fold (c : ℤ) (ops : List (ℤ × LobbyOp)) :
    ∀ (l : GameLobby) (e : Option ℤ),
      (∀ t, e = some t → c ≤ t ∧ l.players.length = 0) →
      (e = none → l.players.length ≠ 0) →
      (∀ x ∈ ops, c ≤ x.1) →
      ∀ te, (ops.foldl emptyStep (l, e)).2 = some te →
        c ≤ te ∧ (ops.foldl emptyStep (l, e)).1.players.length = 0 := by
  induction ops with
  | nil =>
      intro l e hs hn _ te hte
      exact hs te hte
  | cons top rest ih =>
      intro l e hs hn hts te hte
      simp only [List.foldl_cons] at hte ⊢
      refine ih (emptyStep (l, e) top).1 (emptyStep (l, e) top).2 ?_ ?_
        (fun x hx => hts x (List.mem_cons_of_mem _ hx)) te ?_
      · intro t ht
        simp only [emptyStep] at ht ⊢
        split at ht
        · rename_i hempty
          split at ht
          · obtain ⟨h1, _⟩ := hs t ht
            exact ⟨h1, hempty⟩
          · simp only [Option.some.injEq] at ht
            subst ht
            exact ⟨hts top (List.mem_cons_self _ _), hempty⟩
        · exact absurd ht (by simp)
      · intro ht
        simp only [emptyStep] at ht ⊢
        split at ht
        · rename_i hempty
          split at ht
          · rename_i hwas
            exact absurd hwas (hn ht)
          · exact absurd ht (by simp)
        · rename_i hnonempty
          exact hnonempty
      · simpa using hte

/-- The lobby component of the empty-duration fold is the plain
application of the operations. -/
theorem foldl_emptyStep_fst (ops : List (ℤ × LobbyOp)) :
    ∀ (l : GameLobby) (e : Option ℤ),
      (ops.foldl emptyStep (l, e)).1 = applyOps l (ops.map (·.2)) := by
  induction ops with
  | nil => intro l e; rfl
  | cons top rest ih =>
      intro l e
      simp only [List.foldl_cons, List.map_cons, applyOps, emptyStep]
      exact ih _ _

/-- Sequences of joins and leaves never change the creation timestamp. -/
theorem applyOps_createdAt (os : List LobbyOp) :
    ∀ l : GameLobby, (applyOps l os).createdAt = l.createdAt := by
  induction os with
  | nil => intro l; rfl
  | cons op rest ih =>
      intro l
      simp only [applyOps, List.foldl_cons]
      rw [show (rest.foldl applyOp (applyOp l op)) = applyOps (applyOp l op) rest from rfl]
      rw [ih (applyOp l op), applyOp_createdAt]

/-- C6 counterexample: the sweep does NOT measure the duration for which
the lobby has been empty.  A lobby created at time 0 whose only player
leaves at 654 000 ms has been empty for just 6 000 ms at a sweep at
660 000 ms — far less than 10 minutes — yet the sweep deletes it, because
its criterion is age since CREATION, not time spent empty. -/
theorem c6_counterexample :
    cleanupShouldDelete 660000 (lobbyAfter sweepL0 sweepOps) = true ∧
    emptySince 0 sweepL0 sweepOps = some 654000 ∧
    ¬ ((660000 : ℤ) - 654000 > 10 * 60 * 1000) := by
  refine ⟨by decide, by decide, by decide⟩

/-- C6 (amended): the sweep deletes exactly the lobbies that are empty
AND were created more than 10 minutes before the sweep; consequently
every lobby that has been continuously empty for more than 10 minutes is
deleted (the empty-since moment is never earlier than creation), but a
lobby may also be deleted as soon as it empties, once old enough. -/
theorem c6_sweep (l0 : GameLobby) (t0 : ℤ) (ops : List (ℤ × LobbyOp))
    (now te : ℤ) (hc : l0.createdAt = t0)
    (hts : ∀ x ∈ ops, t0 ≤ x.1)
    (he : emptySince t0 l0 ops = some te)
    (hd : now - te > 600000) :
    cleanupShouldDelete now (lobbyAfter l0 ops) = true ∧
    (∀ l : GameLobby, cleanupShouldDelete now l = true ↔
      (l.players.length = 0 ∧ now - l.createdAt > 600000)) := by
  have hfold := emptySince_fold t0 ops l0
    (if l0.players.length = 0 then some t0 else none)
    (by
      intro t ht
      split at ht
      · rename_i hempty
        simp only [Option.some.injEq] at ht
        exact ⟨le_of_eq ht, hempty⟩
      · exact absurd ht (by simp))
    (by
      intro ht
      split at ht
      · exact absurd ht (by simp)
      · rename_i hne; exact hne)
    hts te (by simpa [emptySince] using he)
  obtain ⟨hle, hempty⟩ := hfold
  rw [foldl_emptyStep_fst] at hempty
  have hca : (lobbyAfter l0 ops).createdAt = t0 := by
    rw [lobbyAfter, applyOps_createdAt, hc]
  constructor
  · simp only [cleanupShouldDelete, Bool.and_eq_true, decide_eq_true_eq]
    refine ⟨hempty, ?_⟩
    rw [hca]
    omega
  · intro l
    simp [cleanupShouldDelete]

/-- Witness for `c6_sweep`: a lobby created at 0 that empties at 654 000
is deleted by a sweep at 1 254 001 ms (empty for 600 001 ms). -/
theorem c6_sweep_witness :
    emptySince 0 sweepL0 sweepOps = some 654000 ∧
    cleanupShouldDelete 1254001 (lobbyAfter sweepL0 sweepOps) = true :=
  ⟨by decide,
   (c6_sweep sweepL0 0 sweepOps 1254001 654000 (by decide) (by decide)
     (by decide) (by decide)).1⟩

end LobbyServer
